import Mathlib

/-!
Verification development for the Vertica dialect reflection layer
(vertica_sqlalchemy_dialect/base.py). Each catalog-query function is
embedded as a pure Lean function of the rows its SQL query would return;
the SQL execution engine is an external collaborator, so a function that
issues a query is modelled as a function of that query result. Python
exceptions are modelled with Except PyErr; Python string operations are
modelled on List Char.
-/

namespace VerticaBase

/-- The single-quote character, written by code point. -/
def sqch : Char := Char.ofNat 39

/-- The whitespace characters recognized by the Python str.strip family. -/
def isPySpace (c : Char) : Bool :=
  c == (' ') || c == (Char.ofNat 9) || c == (Char.ofNat 10) || c == (Char.ofNat 13) ||
    c == (Char.ofNat 11) || c == (Char.ofNat 12)

/-- Python str.rstrip with no argument: drop trailing whitespace. -/
def pyRstrip (s : String) : String :=
  String.mk ((s.data.reverse.dropWhile isPySpace).reverse)

/-- Python str.lstrip with no argument: drop leading whitespace. -/
def pyLstrip (s : String) : String :=
  String.mk (s.data.dropWhile isPySpace)

/-- Python str.strip with no argument: drop whitespace on both sides. -/
def pyStrip (s : String) : String :=
  pyLstrip (pyRstrip s)

/-- Python str.lower, restricted to the per-character lowering used by the
identifiers this dialect handles. -/
def pyLower (s : String) : String :=
  String.mk (s.data.map Char.toLower)

/-- Python str.upper. -/
def pyUpper (s : String) : String :=
  String.mk (s.data.map Char.toUpper)

/-- Python str.startswith. -/
def pyStartswith (s p : String) : Bool :=
  p.data.isPrefixOf s.data

/-- Python str of an Option String: None renders as the word None. -/
def pyStrOpt : Option String → String
  | none => ("None")
  | some s => s

/-- Python str of a bool. -/
def pyStrBool (b : Bool) : String :=
  if b then ("True") else ("False")

/-- Python str of an int (agrees with toString on Int). -/
def pyStrInt (n : Int) : String :=
  toString n

/-- Python str of an Option Int. -/
def pyStrOptInt : Option Int → String
  | none => ("None")
  | some n => pyStrInt n

/-- A variable holding either its initial string value (for example the
empty string) or an int assigned in a row loop. -/
def pyStrSumInt : Sum String Int → String
  | .inl s => s
  | .inr n => pyStrInt n

/-- A variable holding either its initial string value or a bool assigned
in a row loop. -/
def pyStrSumBool : Sum String Bool → String
  | .inl s => s
  | .inr b => pyStrBool b

/-- The Python exceptions this module can raise. -/
inductive PyErr where
  | unboundLocal (v : String)
  | attributeError (a : String)
  | noSuchTable (t : String)
  | valueError
  | typeError
  | indexError
  deriving DecidableEq

/-- Python list indexing with a nonnegative index: raises IndexError when
out of range. -/
def pyIndex (l : List α) (i : Nat) : Except PyErr α :=
  match l.get? i with
  | some x => .ok x
  | none => .error (.indexError)

/-- True when an Except succeeded. -/
def exOk : Except PyErr α → Bool
  | .ok _ => true
  | .error _ => false

/-- Auxiliary for pySplit, structurally recursive on a fuel bounded by
the input length (the separator is nonempty wherever this is used). -/
def splitStrAux (sep : List Char) : Nat → List Char → List Char → List (List Char)
  | _, [], acc => [acc.reverse]
  | 0, cs, acc => [acc.reverse ++ cs]
  | fuel + 1, c :: cs, acc =>
    if sep.isPrefixOf (c :: cs) then
      acc.reverse :: splitStrAux sep fuel ((c :: cs).drop sep.length) []
    else
      splitStrAux sep fuel cs (c :: acc)

/-- Python str.split with a nonempty separator: left-to-right,
non-overlapping, keeping empty pieces. -/
def pySplit (s sep : String) : List String :=
  (splitStrAux sep.data s.data.length s.data []).map String.mk

/-- base.py 698-702, normalize_name: name = name and name.rstrip();
if name is None return None; return name.lower(). Note the code calls
rstrip, which strips only trailing whitespace. -/
def normalize_name (name : Option String) : Option String :=
  let step : Option String :=
    match name with
    | none => none
    | some s => if s = ("") then some s else some (pyRstrip s)
  match step with
  | none => none
  | some s => some (pyLower s)

/-- Modelled from the spec words (section 4.1): normalize(name) equals
name.strip().lowercase(), with absent-value passthrough. Stated here only
for comparison with the source function normalize_name. -/
def spec_normalize_name (name : Option String) : Option String :=
  match name with
  | none => none
  | some s => some (pyLower (pyStrip s))

/-- base.py 704-705, denormalize_name: the identity. -/
def denormalize_name (name : String) : String :=
  name

/-- base.py 431-439, get_schema_names: the rows of the schemata query are
kept in order, dropping every name that startswith v_. -/
def get_schema_names (rows : List String) : List String :=
  rows.filter (fun s => !(pyStartswith s ("v_")))

/-- base.py 291-300, has_schema: EXISTS over the schemata catalog where
lower(schema_name) equals the lower-cased argument, then bool(scalar). -/
def has_schema (schemata : List String) (schema : String) : Bool :=
  schemata.any (fun s => pyLower s == pyLower schema)

/-- base.py 302-315, has_table: when schema is None it defaults to the
current schema; EXISTS over all_tables rows (table_name, schema_name)
with case-folded equality on both. -/
def has_table (allTables : List (String × String)) (currentSchema : String)
    (table_name : String) (schema : Option String) : Bool :=
  let sch := schema.getD currentSchema
  allTables.any (fun r => pyLower r.1 == pyLower table_name && pyLower r.2 == pyLower sch)

/-- base.py 317-330, has_sequence: same shape over sequences rows
(sequence_name, sequence_schema). -/
def has_sequence (seqs : List (String × String)) (currentSchema : String)
    (sequence_name : String) (schema : Option String) : Bool :=
  let sch := schema.getD currentSchema
  seqs.any (fun r => pyLower r.1 == pyLower sequence_name && pyLower r.2 == pyLower sch)

/-- base.py 332-341, has_type: EXISTS over the types catalog, no schema. -/
def has_type (types : List String) (type_name : String) : Bool :=
  types.any (fun t => pyLower t == pyLower type_name)

/-- base.py 486-506, get_table_oid: rows is the result of the union query
over base tables and views restricted to the (table, schema) pair;
c.scalar() is the first value or None, and None raises NoSuchTableError. -/
def get_table_oid (table_name : String) (rows : List Int) : Except PyErr Int :=
  match rows.head? with
  | none => .error (.noSuchTable table_name)
  | some oid => .ok oid

/-- base.py 914-931, get_ros_count: the row loop assigns ros_count from
each row; the variable is never given an initial value, so an empty query
result leaves it unbound and the final return raises UnboundLocalError. -/
def get_ros_count (rows : List Int) : Except PyErr Int :=
  match rows.getLast? with
  | some v => .ok v
  | none => .error (.unboundLocal ("ros_count"))

/-- base.py 933-959, get_segmented: is_segmented and segmentation_key both
start as the empty string; every is_segmented row overwrites the flag with
str(bool); since str(True) and str(False) are both truthy and nonempty, the
segmentation-key query rows are then folded into segmentation_key (keyRows
holds the str() rendering of each row of that query). -/
def get_segmented (sigRows : List Bool) (keyRows : List String) : String × String :=
  sigRows.foldl
    (fun (st : String × String) b =>
      let is_segmented := pyStrBool b
      if is_segmented ≠ ("") then
        (is_segmented, keyRows.foldl (fun _ k => k) st.2)
      else
        (is_segmented, st.2))
    (("" : String), ("" : String))

/-- base.py 961-979, get_partitionkey: partition_key starts as the empty
string and every row of the partitions query (LIMIT 1) overwrites it. -/
def get_partitionkey (rows : List String) : String :=
  (rows.getLast?).getD ("")

/-- One row of the projection-type query of base.py 989-994. -/
structure ProjTypeRow where
  is_super_projection : Bool
  is_key_constraint_projection : Bool
  is_aggregate_projection : Bool
  has_expressions : Bool
  deriving DecidableEq

/-- The flag names appended for one row, in the order of base.py 997-1004. -/
def projTypeRowNames (r : ProjTypeRow) : List String :=
  (if r.is_super_projection then [("is_super_projection")] else [])
    ++ (if r.is_key_constraint_projection then [("is_key_constraint_projection")] else [])
    ++ (if r.is_aggregate_projection then [("is_aggregate_projection")] else [])
    ++ (if r.has_expressions then [("has_expressions")] else [])

/-- base.py 981-1006, get_projectiontype: projection_type starts as the
empty list and each row appends the names of its true flags. -/
def get_projectiontype (rows : List ProjTypeRow) : List String :=
  rows.foldl (fun acc r => acc ++ projTypeRowNames r) []

/-- base.py 1008-1026, get_numpartitions: partition_number starts as the
empty string; each row of the COUNT query overwrites it with an int. -/
def get_numpartitions (rows : List Int) : Sum String Int :=
  rows.foldl (fun _ n => .inr n) (.inl (""))

/-- base.py 1028-1046, get_projectionsize: projection_size starts as the
empty string; each row overwrites it with the used_bytes value. -/
def get_projectionsize (rows : List Int) : Sum String Int :=
  rows.foldl (fun _ n => .inr n) (.inl (""))

/-- base.py 1048-1067, get_ifcachedproj: cached_projection starts as the
empty string; each row of the COUNT query overwrites it with count > 0. -/
def get_ifcachedproj (rows : List Int) : Sum String Bool :=
  rows.foldl (fun _ n => .inr (decide (0 < n))) (.inl (""))

/-- Python repr of a string that contains no quotes or escapes. -/
def pyRepr (s : String) : String :=
  sqch.toString ++ s ++ sqch.toString

/-- Python str of a list of plain strings. -/
def pyStrList (l : List String) : String :=
  ("[") ++ String.intercalate (", ") (l.map pyRepr) ++ ("]")

/-- The properties mapping assembled by get_projection_comment. -/
structure ProjProps where
  ros_count : String
  is_segmented : String
  projection_type : String
  partition_key : String
  num_partitions : String
  segmentation_key : String
  projection_size : String
  projection_cached : String
  deriving DecidableEq

/-- base.py 1069-1082, get_projection_comment: the properties dict calls
the seven lookups (get_segmented twice); the ROS Count entry is evaluated
first, so an exception from get_ros_count propagates out of the call. -/
def get_projection_comment (rosRows : List Int) (sigRows : List Bool)
    (keyRows : List String) (typeRows : List ProjTypeRow) (pkeyRows : List String)
    (npRows : List Int) (sizeRows : List Int) (cacheRows : List Int) :
    Except PyErr ProjProps := do
  let rc ← get_ros_count rosRows
  .ok
    { ros_count := pyStrInt rc
      is_segmented := (get_segmented sigRows keyRows).1
      projection_type := pyStrList (get_projectiontype typeRows)
      partition_key := get_partitionkey pkeyRows
      num_partitions := pyStrSumInt (get_numpartitions npRows)
      segmentation_key := (get_segmented sigRows keyRows).2
      projection_size := pyStrSumInt (get_projectionsize sizeRows) ++ (" KB")
      projection_cached := pyStrSumBool (get_ifcachedproj cacheRows) }

/-- The results of the four constituent queries of
get_database_properties (base.py 343-379); each query can itself raise,
carried as an error message. communalRows holds the str() rendering of
each location_path, subclusterRows the (subcluster_name, subclustersize)
pairs, diskRows the str() rendering of each cluster_size value. -/
structure DbRows where
  clusterTypeRows : Except String (List String)
  communalRows : Except String (List String)
  subclusterRows : Except String (List (String × String))
  diskRows : Except String (List String)

/-- The dict returned by get_database_properties on success. -/
structure DbProps where
  cluster_type : String
  cluster_size : String
  subcluster : String
  communal_storage_path : String
  deriving DecidableEq

/-- The body of the try block of base.py 344-376: cluster_type and
communal_path start empty; each cluster-type row overwrites the flag and,
when it is eon (case-folded), re-reads the communal-storage query and
appends every path; then the subcluster and disk-usage loops run. -/
def runDbProps (r : DbRows) : Except String DbProps := do
  let ctRows ← r.clusterTypeRows
  let st ← ctRows.foldlM
    (fun (st : String × String) mode => do
      let cluster_type := mode
      if pyLower cluster_type = ("eon") then do
        let com ← r.communalRows
        .ok (cluster_type, com.foldl (fun acc p => acc ++ p ++ (" | ")) st.2)
      else
        .ok (cluster_type, st.2))
    (("" : String), ("" : String))
  let subs ← r.subclusterRows
  let subcluster := subs.foldl
    (fun acc d => acc ++ d.1 ++ (" -- ") ++ d.2 ++ (" GB |  ")) (" ")
  let dsk ← r.diskRows
  let cluster_size := dsk.foldl (fun _ v => v ++ (" GB")) ("")
  .ok { cluster_type := st.1, cluster_size := cluster_size,
        subcluster := subcluster, communal_storage_path := st.2 }

/-- base.py 343-379, get_database_properties: on success the dict is
returned; on any exception the handler calls logging.warning with the two
shown arguments and the function falls through, returning None. -/
def get_database_properties (database : String) (rows : DbRows) :
    Except PyErr (Option DbProps × List String) :=
  match runDbProps rows with
  | .ok p => .ok (some p, [])
  | .error msg => .ok (none, [database, ("unable to get extra_properties : ") ++ msg])

/-- The results of the three constituent queries of
get_schema_properties (base.py 381-429). -/
structure SchemaRows where
  projCountRows : Except String (List Int)
  udlRows : Except String (List (String × String))
  udxRows : Except String (List String)

/-- The dict returned by get_schema_properties on success. -/
structure SchemaProps where
  projection_count : String
  udx_list : String
  udx_language : String
  deriving DecidableEq

/-- The body of the try block of base.py 382-423, in execution order:
projection count loop, then the UDX function-name loop, then the
user-library loop. -/
def runSchemaProps (r : SchemaRows) : Except String SchemaProps := do
  let pc ← r.projCountRows
  let projection_count : Option Int := pc.foldl (fun _ n => some n) none
  let ux ← r.udxRows
  let udx_list := ux.foldl (fun acc f => acc ++ f ++ (", ")) ("")
  let ul ← r.udlRows
  let user_defined_library := ul.foldl
    (fun acc d => acc ++ d.1 ++ (" -- ") ++ d.2 ++ (" |  ")) ("")
  .ok { projection_count := pyStrOptInt projection_count,
        udx_list := udx_list, udx_language := user_defined_library }

/-- The attributes the VerticaDialect constructor sets (base.py 262-266)
include no report attribute, so reading self.report raises
AttributeError on every instance this module creates. -/
def verticaDialectReport : Option Unit := none

/-- base.py 381-429, get_schema_properties: on success the dict is
returned; on any exception the handler evaluates self.report, which the
dialect does not have, so the handler itself raises AttributeError; had a
report attribute existed, the handler would report and fall through to
return None. -/
def get_schema_properties (report : Option Unit) (schema : String) (rows : SchemaRows) :
    Except PyErr (Option SchemaProps) :=
  match runSchemaProps rows with
  | .ok p => .ok (some p)
  | .error _ =>
    match report with
    | none => .error (.attributeError ("report"))
    | some _ => .ok none

/-- The suffix of a line after its last close paren. -/
def lineAfterLastClose (line : List Char) : List Char :=
  (line.reverse.takeWhile (fun x => x ≠ (')'))).reverse

/-- The prefix of a line before its last close paren. -/
def lineUpToLastClose (line : List Char) : List Char :=
  (((line.reverse.dropWhile (fun x => x ≠ (')'))).drop 1)).reverse

/-- One line under re.sub of the pattern open-paren dot-star close-paren:
dot does not cross a newline, so a match lies within one line and the
lines are independent; a line whose first open paren is followed by some
close paren loses the greedy span from that open paren through the last
close paren of the line, and nothing else on the line can match. -/
def subParenLine (line : List Char) : List Char :=
  let pre := line.takeWhile (fun c => c ≠ ('('))
  match line.drop pre.length with
  | [] => line
  | _ :: tail => if tail.contains (')') then pre ++ lineAfterLastClose tail else line

/-- re.sub of the pattern over the whole string: split at newlines,
handle each line, rejoin. -/
def stripParenChars (cs : List Char) : List Char :=
  List.intercalate [(Char.ofNat 10)] ((cs.splitOn (Char.ofNat 10)).map subParenLine)

/-- The group of the first match of the same pattern under re.search, on
one line: the content between the first qualifying open paren and the
last close paren of the line. -/
def argsGroupLine (line : List Char) : Option (List Char) :=
  let pre := line.takeWhile (fun c => c ≠ ('('))
  match line.drop pre.length with
  | [] => none
  | _ :: tail => if tail.contains (')') then some (lineUpToLastClose tail) else none

/-- The group of the first match over the whole string: the first line
holding a match provides it. -/
def argsGroupChars (cs : List Char) : Option (List Char) :=
  (cs.splitOn (Char.ofNat 10)).findSome? argsGroupLine

/-- re.search for an open paren, a nonempty run of digits and commas, and
a close paren: the first position where that sequence occurs; the run is
greedy and only its maximal extent can be followed by the close paren. -/
def findCharlenChars : List Char → Option (List Char)
  | [] => none
  | c :: rest =>
    if c = ('(') then
      let run := rest.takeWhile (fun x => x.isDigit || x == (','))
      if run ≠ [] ∧ (rest.drop run.length).head? = some (')') then some run
      else findCharlenChars rest
    else findCharlenChars rest

/-- re.split on a comma with surrounding whitespace: equivalent to
splitting on commas and stripping whitespace adjacent to each comma
(outer ends are untouched). -/
def reSplitComma (s : String) : List String :=
  let ps := pySplit s (",")
  let n := ps.length
  ps.mapIdx (fun i p =>
    let p1 := if 0 < i then pyLstrip p else p
    if i + 1 < n then pyRstrip p1 else p1)

/-- Python int() on the strings this module feeds it: a nonempty run of
decimal digits parses, anything else raises ValueError. -/
def pyInt (s : String) : Except PyErr Int :=
  if s ≠ ("") ∧ s.data.all Char.isDigit then
    .ok (Int.ofNat (s.data.foldl (fun n c => n * 10 + (c.toNat - 48)) 0))
  else
    .error (.valueError)

/-- A Python value appearing in a type-constructor argument tuple. -/
inductive PyVal where
  | int (n : Int)
  | str (s : String)
  deriving DecidableEq

/-- The keyword arguments assembled by get_column_info. -/
structure Kwargs where
  timezone : Option Bool := none
  precision : Option Int := none
  fields : Option String := none
  deriving DecidableEq

/-- The sqlalchemy type constructors that ischema_names and the two
dynamically registered helpers refer to. -/
inductive TypeCtor where
  | INTEGER | BIGINT | SMALLINT | CHAR | VARCHAR | NUMERIC | FLOAT | REAL
  | DOUBLE_PRECISION | TIMESTAMP | TIME | INTERVAL | DATE | DATETIME
  | BLOB | BYTEA | BOOLEAN | UUID | TIMESTAMP_WITH_PRECISION
  | TIMESTAMP_WITH_TIMEZONE | TIME_WITH_TIMEZONE
  deriving DecidableEq

/-- A resolved column type: a constructed sqlalchemy type instance, or
the sentinel sqltypes.NULLTYPE. -/
inductive SqlType where
  | inst (ctor : TypeCtor) (args : List PyVal) (kwargs : Kwargs)
  | nulltype
  deriving DecidableEq

/-- issubclass of the instance type_affinity against sqltypes.Integer:
holds for the INTEGER, BIGINT and SMALLINT families only; NULLTYPE has
affinity NullType, which is not an Integer. -/
def SqlType.isIntegerAffine : SqlType → Bool
  | .inst c _ _ =>
    match c with
    | .INTEGER => true
    | .BIGINT => true
    | .SMALLINT => true
    | _ => false
  | .nulltype => false

/-- An entry of the ischema_names dict: a callable class (or factory
function), or a premade type instance such as TIMESTAMP(timezone=True). -/
inductive TableEntry where
  | cls (c : TypeCtor)
  | made (t : SqlType)
  deriving DecidableEq

/-- Calling a dict entry with the reshaped args and kwargs: the two
factory functions force timezone=True before constructing; a premade
instance is not callable and raises TypeError; class construction is
recorded as an instance value. -/
def callEntry (e : TableEntry) (args : List PyVal) (kw : Kwargs) : Except PyErr SqlType :=
  match e with
  | .made _ => .error (.typeError)
  | .cls c =>
    match c with
    | .TIMESTAMP_WITH_TIMEZONE =>
      .ok (.inst (.TIMESTAMP_WITH_PRECISION) args { kw with timezone := some true })
    | .TIME_WITH_TIMEZONE =>
      .ok (.inst (.TIME) args { kw with timezone := some true })
    | _ => .ok (.inst c args kw)

/-- The ischema_names dict, as an association list with unique keys. -/
abbrev TypeTable := List (String × TableEntry)

/-- Dict lookup. -/
def tableGet : TypeTable → String → Option TableEntry
  | [], _ => none
  | (k, v) :: rest, key => if k = key then some v else tableGet rest key

/-- Dict assignment: replace in place, or append a new key. -/
def tableSet : TypeTable → String → TableEntry → TypeTable
  | [], k, v => [(k, v)]
  | (k0, v0) :: rest, k, v =>
    if k0 = k then (k0, v) :: rest else (k0, v0) :: tableSet rest k v

/-- base.py 44-81, the module-level ischema_names dict. -/
def baseIschemaNames : TypeTable :=
  [(("INT"), .cls (.INTEGER)), (("INTEGER"), .cls (.INTEGER)), (("INT8"), .cls (.INTEGER)),
   (("BIGINT"), .cls (.BIGINT)), (("SMALLINT"), .cls (.SMALLINT)), (("TINYINT"), .cls (.SMALLINT)),
   (("CHAR"), .cls (.CHAR)), (("VARCHAR"), .cls (.VARCHAR)), (("VARCHAR2"), .cls (.VARCHAR)),
   (("TEXT"), .cls (.VARCHAR)), (("NUMERIC"), .cls (.NUMERIC)), (("DECIMAL"), .cls (.NUMERIC)),
   (("NUMBER"), .cls (.NUMERIC)), (("MONEY"), .cls (.NUMERIC)), (("FLOAT"), .cls (.FLOAT)),
   (("FLOAT8"), .cls (.FLOAT)), (("REAL"), .cls (.REAL)), (("DOUBLE"), .cls (.DOUBLE_PRECISION)),
   (("TIMESTAMP"), .cls (.TIMESTAMP)), (("TIMESTAMP WITH TIMEZONE"), .cls (.TIMESTAMP)),
   (("TIMESTAMPTZ"), .made (.inst (.TIMESTAMP) [] { timezone := some true })),
   (("TIME"), .cls (.TIME)), (("TIME WITH TIMEZONE"), .cls (.TIME)),
   (("TIMETZ"), .made (.inst (.TIME) [] { timezone := some true })),
   (("INTERVAL"), .cls (.INTERVAL)), (("DATE"), .cls (.DATE)), (("DATETIME"), .cls (.DATETIME)),
   (("SMALLDATETIME"), .cls (.DATETIME)), (("BINARY"), .cls (.BLOB)), (("VARBINARY"), .cls (.BLOB)),
   (("RAW"), .cls (.BLOB)), (("BYTEA"), .cls (.BYTEA)), (("BOOLEAN"), .cls (.BOOLEAN)),
   (("LONG VARBINARY"), .cls (.BLOB)), (("LONG VARCHAR"), .cls (.VARCHAR)),
   (("GEOMETRY"), .cls (.BLOB))]

/-- base.py 782-785: the four assignments run on every call, after the
lookup of the current call. -/
def augment (tbl : TypeTable) : TypeTable :=
  tableSet
    (tableSet
      (tableSet
        (tableSet tbl ("UUID") (.cls (.UUID)))
        ("TIMESTAMP") (.cls (.TIMESTAMP_WITH_PRECISION)))
      ("TIMESTAMPTZ") (.cls (.TIMESTAMP_WITH_TIMEZONE)))
    ("TIMETZ") (.cls (.TIME_WITH_TIMEZONE))

/-- re.match of the pattern interval-space-dot-plus against attype (which
already starts with the word interval): requires a space at index 8 and at
least one following character on the same line. -/
def intervalFields (attype : String) : Option String :=
  if attype.data.get? 8 = some (' ') ∧
      ((attype.data.drop 9).takeWhile (fun x => x ≠ (Char.ofNat 10))) ≠ [] then
    some (String.mk ((attype.data.drop 9).takeWhile (fun x => x ≠ (Char.ofNat 10))))
  else
    none

/-- base.py 731-772: computing attype, charlen and args from the raw type
string, then the per-base-type argument reshaping chain. Returns the
final attype, the positional args and the keyword args; integer
conversion failures raise ValueError exactly where int() does. -/
def reshapeAll (data_type : String) : Except PyErr (String × List PyVal × Kwargs) :=
  let attype := String.mk (stripParenChars data_type.data)
  let charlen := (findCharlenChars data_type.data).map String.mk
  let args0 : List String :=
    match argsGroupChars data_type.data with
    | some g => if g ≠ [] then reSplitComma (String.mk g) else []
    | none => []
  if attype = ("numeric") then
    match charlen with
    | some cl =>
      match pySplit cl (",") with
      | [p, s] => do
        let pn ← pyInt p
        let sn ← pyInt s
        .ok (attype, [.int pn, .int sn], {})
      | _ => .error (.valueError)
    | none => .ok (attype, [], {})
  else if attype = ("integer") then
    .ok (attype, [], {})
  else if attype = ("timestamptz") ∨ attype = ("timetz") then
    match charlen with
    | some cl => do
      let n ← pyInt cl
      .ok (attype, [], { timezone := some true, precision := some n })
    | none => .ok (attype, [], { timezone := some true })
  else if attype = ("timestamp") ∨ attype = ("time") then
    .ok (attype, [], { timezone := some false })
  else if pyStartswith attype ("interval") then do
    let precision ← match charlen with
      | some cl => (pyInt cl).map some
      | none => .ok none
    .ok (("interval"), [], { precision := precision, fields := intervalFields attype })
  else if attype = ("date") then
    .ok (attype, [], {})
  else
    match charlen with
    | some cl => do
      let n ← pyInt cl
      .ok (attype, [.int n], {})
    | none => .ok (attype, args0.map PyVal.str, {})

/-- The warning text of base.py 790-791. -/
def warnMsg (attype name : String) : String :=
  ("Did not recognize type ") ++ pyRepr attype ++ (" of column ") ++ pyRepr name

/-- base.py 774-792: look the upper-cased attype up in ischema_names
(before the augmentation of this call); a hit is called with the reshaped
args and kwargs, a miss warns and degrades to NULLTYPE. -/
def resolveType (tbl : TypeTable) (attype : String) (args : List PyVal) (kw : Kwargs)
    (colname : String) : Except PyErr (SqlType × List String) :=
  match tableGet tbl (pyUpper attype) with
  | some e => (callEntry e args kw).map (fun t => (t, []))
  | none => .ok (.nulltype, [warnMsg attype colname])

/-- The literal prefix group of the nextval regex of base.py 796. -/
def nextvalPfx : List Char :=
  (("nextval(") ++ sqch.toString).data

/-- The tail group of the nextval regex: a quote, then dot-star
anchored by dollar. Succeeds when the rest of the input after the quote
reaches the end of the string with at most one trailing newline, and
yields the group content (the quote plus the rest of its line). -/
def nextvalTail (cs : List Char) : Option (List Char) :=
  match cs with
  | [] => none
  | c :: rest =>
    if c = sqch then
      let line := rest.takeWhile (fun x => x ≠ (Char.ofNat 10))
      if rest.drop line.length = [] ∨ rest.drop line.length = [(Char.ofNat 10)] then
        some (c :: line)
      else none
    else none

/-- re.search of the nextval pattern of base.py 796: scan for the literal
prefix, take a nonempty run of non-quote characters as group two, and
require the tail group; on failure resume the scan one character later.
Returns groups two and three. -/
def findNextval : List Char → Option (List Char × List Char)
  | [] => none
  | c :: rest =>
    if nextvalPfx.isPrefixOf (c :: rest) then
      let g2 := ((c :: rest).drop 9).takeWhile (fun x => x ≠ sqch)
      let t := ((c :: rest).drop 9).drop g2.length
      if g2 ≠ [] then
        match nextvalTail t with
        | some g3 => some (g2, g3)
        | none => findNextval rest
      else findNextval rest
    else findNextval rest

/-- base.py 793-812: autoincrement is set when the default matches the
nextval pattern and the resolved type is integer-affine; when the matched
sequence reference has no dot and a schema was supplied, the default is
rebuilt as the prefix, the double-quoted schema, a dot, and groups two
and three. -/
def adjustDefault (isInt : Bool) (schema : Option String) (dflt : Option String) :
    Bool × Option String :=
  match dflt with
  | none => (false, none)
  | some d =>
    match findNextval d.data with
    | none => (false, some d)
    | some (g2, g3) =>
      match schema with
      | some sch =>
        if g2.contains ('.') then (isInt, some d)
        else
          (isInt,
            some (String.mk (nextvalPfx ++ ('"') :: sch.data ++ ('"') :: ('.') :: (g2 ++ g3))))
      | none => (isInt, some d)

/-- The column_info dict of base.py 814-821, plus the primary_key entry
merged in by get_columns. -/
structure ColumnInfo where
  name : String
  type : SqlType
  nullable : Bool
  dflt : Option String
  autoincrement : Bool
  comment : String
  primary_key : Bool := false
  deriving DecidableEq

/-- The result of one get_column_info call: the descriptor, the
ischema_names dict after the augmentation of this call, and the warnings
emitted. -/
structure GciResult where
  info : ColumnInfo
  table : TypeTable
  warnings : List String
  deriving DecidableEq

/-- base.py 727-822, get_column_info. -/
def get_column_info (tbl : TypeTable) (name data_type : String) (dflt : Option String)
    (is_nullable : Bool) (schema : Option String) : Except PyErr GciResult :=
  match reshapeAll data_type with
  | .error e => .error e
  | .ok (attype, args, kw) =>
    match resolveType tbl attype args kw name with
    | .error e => .error e
    | .ok (coltype, ws) =>
      let ad := adjustDefault (SqlType.isIntegerAffine coltype) schema dflt
      .ok
        { info :=
            { name := name, type := coltype, nullable := is_nullable, dflt := ad.2,
              autoincrement := ad.1, comment := pyStrOpt ad.2 }
          table := augment tbl
          warnings := ws }

/-- One row of the three-way union column query of base.py 616-631. -/
structure ColRow where
  column_name : String
  data_type : String
  column_default : Option String
  is_nullable : Bool
  deriving DecidableEq

/-- The row loop of base.py 643-658: each row is translated with the
lower-cased data type, and primary_key is the untranslated column name
tested for membership in the primary-key query result. The ischema_names
dict is threaded through the calls. -/
def getColumnsAux (tbl : TypeTable) (pk : List String) (schema : Option String) :
    List ColRow → Except PyErr (List ColumnInfo × TypeTable × List String)
  | [] => .ok ([], tbl, [])
  | r :: rs =>
    match get_column_info tbl r.column_name (pyLower r.data_type) r.column_default
        r.is_nullable schema with
    | .error e => .error e
    | .ok res =>
      match getColumnsAux res.table pk schema rs with
      | .error e => .error e
      | .ok (cols, tbl2, ws) =>
        .ok (({ res.info with primary_key := pk.contains r.column_name }) :: cols,
          tbl2, res.warnings ++ ws)

/-- base.py 608-659, get_columns: pk is the primary-key query result
(its column_name values), colRows the union query result. -/
def get_columns (tbl : TypeTable) (colRows : List ColRow) (pk : List String)
    (schema : Option String) : Except PyErr (List ColumnInfo × TypeTable × List String) :=
  getColumnsAux tbl pk schema colRows

/-- The (name, primary_key) projection of a get_columns result. -/
def colsNamePk (r : Except PyErr (List ColumnInfo × TypeTable × List String)) :
    List (String × Bool) :=
  match r with
  | .ok x => x.1.map (fun c => (c.name, c.primary_key))
  | .error _ => []

/-- The resolved type of a get_column_info result (NULLTYPE on error;
only read under a success hypothesis). -/
def gciType (r : Except PyErr GciResult) : SqlType :=
  match r with
  | .ok res => res.info.type
  | .error _ => .nulltype

/-- The autoincrement flag of a get_column_info result. -/
def gciAutoinc (r : Except PyErr GciResult) : Bool :=
  match r with
  | .ok res => res.info.autoincrement
  | .error _ => false

/-- The adjusted default of a get_column_info result. -/
def gciDefault (r : Except PyErr GciResult) : Option String :=
  match r with
  | .ok res => res.info.dflt
  | .error _ => none

/-- The warnings of a get_column_info result. -/
def gciWarnings (r : Except PyErr GciResult) : List String :=
  match r with
  | .ok res => res.warnings
  | .error _ => []

/-- One row of the client_auth query of base.py 1160-1170. -/
structure AuthRow where
  auth_oid : Int
  is_auth_enabled : Bool
  is_fallthrough_enabled : Bool
  auth_parameters : String
  auth_priority : Int
  address_priority : Int
  deriving DecidableEq

/-- The loop variables of get_oauth_comment: client_id and client_secret
start as the empty string (base.py 1171-1172); the other names are only
bound inside the loop and reading them unbound raises. -/
structure OauthState where
  client_id : String := ""
  client_secret : String := ""
  discovery_url : Option String := none
  introspect_url : Option String := none
  auth_oid : Option Int := none
  is_auth_enabled : Option Bool := none
  auth_priority : Option Int := none
  address_priority : Option Int := none
  is_fallthrough_enabled : Option Bool := none
  deriving DecidableEq

/-- The loop body of base.py 1173-1200: split the parameter blob on
comma-space, split each of the first four pieces on the equals sign, and
take index one of each (IndexError when a piece is missing or has no
equals sign); then copy the remaining row fields. -/
def oauthLoop : List AuthRow → OauthState → Except PyErr OauthState
  | [], st => .ok st
  | r :: rs, st => do
    let whole_data := pySplit r.auth_parameters (", ")
    let w0 ← pyIndex whole_data 0
    let client_id_data := pySplit w0 ("=")
    let cid ← if client_id_data ≠ [] then pyIndex client_id_data 1 else .ok st.client_id
    let w1 ← pyIndex whole_data 1
    let client_secret_data := pySplit w1 ("=")
    let cs ← if client_secret_data ≠ [] then pyIndex client_secret_data 1 else .ok st.client_secret
    let w2 ← pyIndex whole_data 2
    let client_discorvery_url := pySplit w2 ("=")
    let du ← if client_discorvery_url ≠ [] then (pyIndex client_discorvery_url 1).map some
      else .ok st.discovery_url
    let w3 ← pyIndex whole_data 3
    let client_introspect_url := pySplit w3 ("=")
    let iu ← if client_introspect_url ≠ [] then (pyIndex client_introspect_url 1).map some
      else .ok st.introspect_url
    oauthLoop rs
      { client_id := cid, client_secret := cs, discovery_url := du, introspect_url := iu,
        auth_oid := some r.auth_oid, is_auth_enabled := some r.is_auth_enabled,
        auth_priority := some r.auth_priority, address_priority := some r.address_priority,
        is_fallthrough_enabled := some r.is_fallthrough_enabled }

/-- The properties dict of base.py 1202-1206 (string renderings). -/
structure OauthProps where
  discovery_url : String
  client_id : String
  introspect_url : String
  auth_oid : String
  client_secret : String
  is_auth_enabled : String
  auth_priority : String
  address_priority : String
  is_fallthrough_enabled : String
  deriving DecidableEq

/-- base.py 1157-1206, get_oauth_comment over the OAUTH rows: run the
loop, then build the dict; names never bound by the loop raise when the
dict is built (discovery_url is read first). -/
def get_oauth_comment (rows : List AuthRow) : Except PyErr OauthProps := do
  let st ← oauthLoop rows {}
  match st.discovery_url, st.introspect_url, st.auth_oid, st.is_auth_enabled,
      st.auth_priority, st.address_priority, st.is_fallthrough_enabled with
  | some du, some iu, some ao, some en, some ap, some adp, some fe =>
    .ok
      { discovery_url := du, client_id := st.client_id, introspect_url := iu,
        auth_oid := pyStrInt ao, client_secret := st.client_secret,
        is_auth_enabled := pyStrBool en, auth_priority := pyStrInt ap,
        address_priority := pyStrInt adp, is_fallthrough_enabled := pyStrBool fe }
  | _, _, _, _, _, _, _ => .error (.unboundLocal ("discovery_url"))

/-- The regex caret-https-question-colon-slash-slash of the spec: an http
or https scheme prefix. -/
def matchesHttpUrl (s : String) : Bool :=
  pyStartswith s ("http://") || pyStartswith s ("https://")

/-- The parameter blob of the spec scenario for the OAuth aggregator. -/
def oauthBlob : String :=
  "client_id=abc, client_secret=xyz, discovery_url=http://x/disc, introspect_url=http://x/intro"

/-- A concrete column default of the shape nextval-quote-name-quote-paren. -/
def seqDefault : String :=
  ("nextval(") ++ sqch.toString ++ ("t_id_seq") ++ sqch.toString ++ (")")

/-- C1: each projection attribute lookup is claimed to return an empty
string or zero on an empty query result and never raise; get_ros_count on
zero rows instead raises UnboundLocalError, and the projection-comment
aggregation propagates that error, while a projection with zero
partition rows does get partition key empty and partition count zero. -/
theorem c1_projection_attr_lookups :
    get_ros_count [] = .error (.unboundLocal ("ros_count"))
    ∧ get_partitionkey [] = ("")
    ∧ get_numpartitions [0] = .inr 0
    ∧ get_projection_comment [] [] [] [] [] [] [] [] = .error (.unboundLocal ("ros_count"))
    ∧ (get_projection_comment [3] [true] [("seg")] [] [] [0] [12] [1]).map
        (fun p => (p.partition_key, p.num_partitions)) = .ok ((""), ("0")) :=
  ⟨rfl, rfl, rfl, rfl, rfl⟩

/-- C2: the database-level aggregator catches a constituent-query failure,
logs and returns None; the schema-level aggregator is claimed to do the
same, but its handler reads the report attribute the dialect never sets,
so the handler itself raises AttributeError to the caller. -/
theorem c2_enrichment_failure_paths :
    get_database_properties ("db") ⟨.error ("boom"), .ok [], .ok [], .ok []⟩
      = .ok (none, [("db"), ("unable to get extra_properties : boom")])
    ∧ verticaDialectReport = none
    ∧ get_schema_properties verticaDialectReport ("s") ⟨.error ("boom"), .ok [], .ok []⟩
      = .error (.attributeError ("report")) :=
  ⟨rfl, rfl, rfl⟩

/-- C3 counterexample: on a name with leading whitespace the source
normalizer keeps the leading space, while the spec normalizer (strip on
both sides, then lowercase) removes it. -/
theorem c3_counterexample :
    normalize_name (some (" A")) ≠ spec_normalize_name (some (" A")) := by
  decide

/-- C3 amended: normalize_name strips trailing whitespace only, then
lower-cases, with absent-value passthrough. -/
theorem c3_rstrip_then_lower (name : Option String) :
    normalize_name name = name.map (fun s => pyLower (pyRstrip s)) := by
  cases name with
  | none => rfl
  | some s =>
    by_cases hs : s = ("")
    · subst hs; rfl
    · simp [normalize_name, hs]

/-- Helper: get_column_info keeps the column name unchanged. -/
theorem gci_name_eq (tbl : TypeTable) (name dt : String) (d : Option String) (nb : Bool)
    (sch : Option String) (res : GciResult)
    (h : get_column_info tbl name dt d nb sch = .ok res) : res.info.name = name := by
  unfold get_column_info at h
  cases hr : reshapeAll dt with
  | error e =>
    simp only [hr] at h
    exact Except.noConfusion h
  | ok t =>
    obtain ⟨attype, args, kw⟩ := t
    simp only [hr] at h
    cases hv : resolveType tbl attype args kw name with
    | error e =>
      simp only [hv] at h
      exact Except.noConfusion h
    | ok p =>
      obtain ⟨coltype, ws⟩ := p
      simp only [hv, Except.ok.injEq] at h
      subst h
      rfl

/-- C4 counterexample: the primary-key query returns the set containing
id, the column listing returns the column named ID; the code marks it
false although its normalized name is a member of the set. -/
theorem c4_counterexample :
    colsNamePk (get_columns baseIschemaNames [⟨("ID"), ("integer"), none, false⟩]
        [("id")] none) = [(("ID"), false)]
    ∧ pyLower ("ID") = ("id") :=
  ⟨rfl, rfl⟩

/-- C4 amended: on a successful call, get_columns marks primary_key true
exactly when the untranslated column name is a member (exact string
equality, no normalization) of the primary-key query result. -/
theorem c4_pk_membership (tbl : TypeTable) (rows : List ColRow) (pk : List String)
    (schema : Option String) (h : exOk (get_columns tbl rows pk schema) = true) :
    colsNamePk (get_columns tbl rows pk schema)
      = rows.map (fun r => (r.column_name, pk.contains r.column_name)) := by
  induction rows generalizing tbl with
  | nil => rfl
  | cons r rs ih =>
    unfold get_columns getColumnsAux at h ⊢
    cases hg : get_column_info tbl r.column_name (pyLower r.data_type) r.column_default
        r.is_nullable schema with
    | error e =>
      simp only [hg, exOk] at h
      exact Bool.noConfusion h
    | ok res =>
      simp only [hg] at h ⊢
      cases ha : getColumnsAux res.table pk schema rs with
      | error e =>
        simp only [ha, exOk] at h
        exact Bool.noConfusion h
      | ok triple =>
        obtain ⟨cols, tbl2, ws⟩ := triple
        simp only [ha] at h ⊢
        have h2 : exOk (get_columns res.table rs pk schema) = true := by
          unfold get_columns
          simp only [ha, exOk]
        have ih2 := ih res.table h2
        unfold get_columns at ih2
        simp only [ha, colsNamePk] at ih2
        simp only [colsNamePk, List.map]
        rw [gci_name_eq tbl r.column_name (pyLower r.data_type) r.column_default
          r.is_nullable schema res hg]
        rw [ih2]

/-- C4 witness: a three-column table with primary-key set a, b marks
exactly those two true. -/
theorem c4_witness :
    colsNamePk (get_columns baseIschemaNames
        [⟨("a"), ("integer"), none, false⟩, ⟨("b"), ("varchar(10)"), none, true⟩,
         ⟨("c"), ("integer"), none, false⟩] [("a"), ("b")] none)
      = ([⟨("a"), ("integer"), none, false⟩, ⟨("b"), ("varchar(10)"), none, true⟩,
          ⟨("c"), ("integer"), none, false⟩] : List ColRow).map
          (fun r => (r.column_name, [("a"), ("b")].contains r.column_name)) :=
  c4_pk_membership baseIschemaNames _ _ none rfl

/-- C5: on a successful call whose default matches the nextval pattern,
an integer-affine resolved type forces autoincrement, and when group two
has no dot and a schema was supplied the returned default is the textual
rewrite with the double-quoted schema and a dot inserted. -/
theorem c5_autoincrement_and_rewrite (tbl : TypeTable) (name dt d : String) (nb : Bool)
    (schema : Option String) (g2 g3 : List Char)
    (hm : findNextval d.data = some (g2, g3))
    (hok : exOk (get_column_info tbl name dt (some d) nb schema) = true) :
    (SqlType.isIntegerAffine (gciType (get_column_info tbl name dt (some d) nb schema)) = true →
      gciAutoinc (get_column_info tbl name dt (some d) nb schema) = true)
    ∧ (∀ sch, schema = some sch → g2.contains ('.') = false →
        gciDefault (get_column_info tbl name dt (some d) nb schema)
          = some (String.mk (nextvalPfx ++ ('"') :: sch.data ++ ('"') :: ('.') :: (g2 ++ g3)))) := by
  cases hr : reshapeAll dt with
  | error e =>
    unfold get_column_info at hok
    simp only [hr, exOk] at hok
    exact Bool.noConfusion hok
  | ok t =>
    obtain ⟨attype, args, kw⟩ := t
    cases hv : resolveType tbl attype args kw name with
    | error e =>
      unfold get_column_info at hok
      simp only [hr, hv, exOk] at hok
      exact Bool.noConfusion hok
    | ok p =>
      obtain ⟨coltype, ws⟩ := p
      constructor
      · intro hint
        unfold get_column_info at hint ⊢
        simp only [hr, hv, gciType] at hint
        simp only [hr, hv, gciAutoinc, adjustDefault, hm]
        cases schema with
        | none => simpa using hint
        | some sch =>
          simp only [hint]
          split <;> rfl
      · intro sch hsch hdot
        subst hsch
        unfold get_column_info
        simp only [hr, hv, gciDefault, adjustDefault, hm]
        have hd : ¬ (('.') ∈ g2) := by simpa using hdot
        simp [hd]

/-- C5 witness: an integer column whose default is a nextval call on an
unqualified sequence, with schema public supplied, is autoincrement. -/
theorem c5_witness :
    gciAutoinc (get_column_info baseIschemaNames ("id") ("integer") (some seqDefault)
      false (some ("public"))) = true :=
  (c5_autoincrement_and_rewrite baseIschemaNames ("id") ("integer") seqDefault false
    (some ("public")) (("t_id_seq").data) (sqch :: (")").data) (by rfl) (by rfl)).1 (by rfl)

/-- C6 counterexample: the base token foo has no table entry, and the
call with raw type foo(10,2) raises ValueError from the integer
conversion of the parenthesized suffix instead of returning the null-type
descriptor. -/
theorem c6_counterexample :
    tableGet baseIschemaNames (pyUpper ("foo")) = none
    ∧ get_column_info baseIschemaNames ("c") ("foo(10,2)") none true none
      = .error (.valueError) :=
  ⟨rfl, rfl⟩

/-- C6 amended: whenever argument reshaping succeeds and the upper-cased
base token has no entry in the lookup table, the call succeeds, the type
field is the NULLTYPE sentinel (never absent), and exactly the
unrecognized-type warning is emitted. -/
theorem c6_unknown_type (tbl : TypeTable) (name dt : String) (d : Option String) (nb : Bool)
    (schema : Option String) (attype : String) (args : List PyVal) (kw : Kwargs)
    (hr : reshapeAll dt = .ok (attype, args, kw))
    (hl : tableGet tbl (pyUpper attype) = none) :
    exOk (get_column_info tbl name dt d nb schema) = true
    ∧ gciType (get_column_info tbl name dt d nb schema) = SqlType.nulltype
    ∧ gciWarnings (get_column_info tbl name dt d nb schema) = [warnMsg attype name] := by
  have hv : resolveType tbl attype args kw name = .ok (SqlType.nulltype, [warnMsg attype name]) := by
    unfold resolveType
    rw [hl]
  refine ⟨?_, ?_, ?_⟩ <;>
    · unfold get_column_info
      simp only [hr, hv, exOk, gciType, gciWarnings]

/-- C6 witness: the unrecognized bare type foo resolves to NULLTYPE. -/
theorem c6_witness :
    gciType (get_column_info baseIschemaNames ("c") ("foo") none true none)
      = SqlType.nulltype :=
  (c6_unknown_type baseIschemaNames ("c") ("foo") none true none ("foo") [] {}
    (by rfl) (by rfl)).2.1

/-- C7: get_table_oid raises the no-such-table error exactly when the
union query returned no matching row, and otherwise returns the first
matching identifier, positive whenever the catalog identifiers are. -/
theorem c7_get_table_oid (tn : String) (rows : List Int) (hpos : ∀ x ∈ rows, 0 < x) :
    (get_table_oid tn rows = .error (.noSuchTable tn) ↔ rows = [])
    ∧ (∀ v vs, rows = v :: vs → get_table_oid tn rows = .ok v ∧ 0 < v) := by
  cases rows with
  | nil =>
    refine ⟨by simp [get_table_oid], ?_⟩
    intro v vs h
    exact absurd h (by simp)
  | cons a l =>
    refine ⟨by simp [get_table_oid], ?_⟩
    intro v vs h
    obtain ⟨h1, h2⟩ := List.cons.inj h
    subst h1
    exact ⟨by simp [get_table_oid], hpos a (by simp)⟩

/-- C7 witness: an existing table with identifier 42 resolves to 42. -/
theorem c7_witness : get_table_oid ("t1") [42] = .ok 42 ∧ 0 < (42 : Int) :=
  (c7_get_table_oid ("t1") [42] (by decide)).2 42 [] rfl

/-- C8: each existence check is a total boolean function (it cannot
raise) returning true exactly when at least one catalog row satisfies the
case-folded predicate of its existence subquery. -/
theorem c8_existence_checks (schemata : List String) (allTables seqs : List (String × String))
    (types : List String) (curr tn sn ty sch : String) (osch : Option String) :
    (has_schema schemata sch = true ↔ ∃ s ∈ schemata, pyLower s = pyLower sch)
    ∧ (has_table allTables curr tn osch = true ↔
        ∃ r ∈ allTables, pyLower r.1 = pyLower tn ∧ pyLower r.2 = pyLower (osch.getD curr))
    ∧ (has_sequence seqs curr sn osch = true ↔
        ∃ r ∈ seqs, pyLower r.1 = pyLower sn ∧ pyLower r.2 = pyLower (osch.getD curr))
    ∧ (has_type types ty = true ↔ ∃ t ∈ types, pyLower t = pyLower ty) := by
  refine ⟨?_, ?_, ?_, ?_⟩ <;>
    simp [has_schema, has_table, has_sequence, has_type, List.any_eq_true]

/-- C9: an OAUTH row whose parameter blob is the spec scenario yields
client_id abc, client_secret xyz, discovery_url http://x/disc and an
introspect_url matching the http scheme pattern, decomposed positionally. -/
theorem c9_oauth_blob (r : AuthRow) (h : r.auth_parameters = oauthBlob) :
    get_oauth_comment [r] = .ok
      { discovery_url := ("http://x/disc"), client_id := ("abc"),
        introspect_url := ("http://x/intro"), auth_oid := pyStrInt r.auth_oid,
        client_secret := ("xyz"), is_auth_enabled := pyStrBool r.is_auth_enabled,
        auth_priority := pyStrInt r.auth_priority,
        address_priority := pyStrInt r.address_priority,
        is_fallthrough_enabled := pyStrBool r.is_fallthrough_enabled }
    ∧ matchesHttpUrl ("http://x/intro") = true := by
  obtain ⟨ao, en, fe, params, apr, adp⟩ := r
  simp only at h
  subst h
  exact ⟨rfl, rfl⟩

/-- C9 witness: a concrete OAUTH row with the scenario blob. -/
theorem c9_witness :
    get_oauth_comment [⟨1, true, false, oauthBlob, 5, 6⟩] = .ok
      { discovery_url := ("http://x/disc"), client_id := ("abc"),
        introspect_url := ("http://x/intro"), auth_oid := pyStrInt 1,
        client_secret := ("xyz"), is_auth_enabled := pyStrBool true,
        auth_priority := pyStrInt 5, address_priority := pyStrInt 6,
        is_fallthrough_enabled := pyStrBool false }
    ∧ matchesHttpUrl ("http://x/intro") = true :=
  c9_oauth_blob ⟨1, true, false, oauthBlob, 5, 6⟩ rfl

/-- C10: get_schema_names returns exactly the queried schema names that
do not start with the v underscore prefix, as an order-preserving
sublist of the query result. -/
theorem c10_schema_names (rows : List String) :
    (∀ s ∈ get_schema_names rows, s ∈ rows ∧ pyStartswith s ("v_") = false)
    ∧ (∀ s ∈ rows, pyStartswith s ("v_") = false → s ∈ get_schema_names rows)
    ∧ List.Sublist (get_schema_names rows) rows := by
  refine ⟨?_, ?_, ?_⟩
  · intro s hs
    have hm := List.mem_filter.mp hs
    exact ⟨hm.1, by simpa using hm.2⟩
  · intro s hs h
    exact List.mem_filter.mpr ⟨hs, by simp [h]⟩
  · exact List.filter_sublist _

/-- C10 witness: public is kept while v_catalog is dropped. -/
theorem c10_witness :
    (("public") ∈ [("public"), ("v_catalog")])
    ∧ pyStartswith ("public") ("v_") = false :=
  (c10_schema_names [("public"), ("v_catalog")]).1 ("public") (by decide)

end VerticaBase
